import Mathlib

/-!
Verification of the incident-state consolidation and priority-classification
engine of the station-monitoring dashboard.

Shallow embedding of:
* `modules/data_processor.py` (`clasificar_prioridad`, `detectar_problemas_ocultos`),
* `generador_reportes/02_calcular_disponibilidad.py` (`calcular_disponibilidad`),
* `01_procesamiento.py` (`clasificar_disponibilidad`),
* `generador_reportes/02_postproceso.py` (`clasificar_var_disp_num`,
  `determinar_estado`, the outer merge and the consolidated row construction),
* `modules/file_handler.py` (`validar_columnas`).

Conventions:
* Python floats are modelled as rationals; `None` / `NaN` as `Option.none`.
* Dates are integers counting days, so subtraction of dates is the number of
  elapsed days and `timedelta(days = n)` is the integer `n`.
* `str.strip()` is modelled by `stripStr`, `str.lower()` by `lowerStr`.
* Pandas dataframes are lists of records; `merge` enumerates key-matching
  pairs in left order, an outer merge appends the unmatched right rows.
  `sort_values` is modelled by `List.insertionSort` (the claims proved here
  are insensitive to the order of key-equal rows).
-/

/-- Whitespace test used to model Python `str.strip`. -/
def wsp (c : Char) : Bool := c.isWhitespace

/-- Drop whitespace from both ends of a char list. -/
def stripL (l : List Char) : List Char :=
  ((l.dropWhile wsp).reverse.dropWhile wsp).reverse

/-- Model of Python `str.strip()`: drop whitespace from both ends. -/
def stripStr (s : String) : String := ⟨stripL s.data⟩

/-- Model of Python `str.lower()`. -/
def lowerStr (s : String) : String := ⟨s.data.map Char.toLower⟩

/-- Model of Python `sub in s` (substring containment) on char lists. -/
def listContains (sub : List Char) : List Char → Bool
  | [] => sub.isEmpty
  | c :: cs => sub.isPrefixOf (c :: cs) || listContains sub cs

/-- `strContains s sub` models Python `sub in s`. -/
def strContains (s sub : String) : Bool := listContains sub.data s.data

/-- Keep the first occurrence of each element: models the key order of a
Python dict built by insertion and pandas `drop_duplicates`. -/
def dropDup [DecidableEq α] (l : List α) : List α :=
  l.foldl (fun acc a => if a ∈ acc then acc else acc ++ [a]) []

/-- `config.THRESHOLD_CRITICAL` (config.py): below this value is critical. -/
def THRESHOLD_CRITICAL : ℚ := 80

/-- `config.THRESHOLD_ANOMALY` (config.py): above this value is an anomaly. -/
def THRESHOLD_ANOMALY : ℚ := 100

/-- `config.PRIORITY_HIGH_MAX_DAYS` (config.py). -/
def PRIORITY_HIGH_MAX_DAYS : Int := 30

/-- `config.PRIORITY_MEDIUM_MONITOR_DAYS` (config.py). -/
def PRIORITY_MEDIUM_MONITOR_DAYS : Int := 5

/-- `config.PRIORITY_PARALIZADA_MIN_DAYS` (config.py). -/
def PRIORITY_PARALIZADA_MIN_DAYS : Int := 90

/-- `config.PRIORITY_CLAUSURA_MIN_DAYS` (config.py). -/
def PRIORITY_CLAUSURA_MIN_DAYS : Int := 730

/-- `DataProcessor.clasificar_prioridad` (modules/data_processor.py lines
91-150).  The row fields `estado_inci`, `dias_desde_inci` and
`disponibilidad` are passed explicitly; a missing `dias_desde_inci` is
`none`. -/
def clasificar_prioridad (estado_inci : String) (dias_desde_inci : Option Int)
    (disponibilidad : ℚ) : String :=
  if dias_desde_inci = none ∧ disponibilidad ≥ THRESHOLD_CRITICAL then "N/A"
  else if disponibilidad ≤ 1/2
      ∧ dias_desde_inci.getD 0 ≥ PRIORITY_PARALIZADA_MIN_DAYS then "BAJA"
  else if strContains (stripStr (lowerStr estado_inci)) "nueva" then
    if dias_desde_inci.getD 0 ≤ PRIORITY_HIGH_MAX_DAYS then "ALTA" else "MEDIA"
  else if strContains (stripStr (lowerStr estado_inci)) "recurrente" then "MEDIA"
  else if strContains (stripStr (lowerStr estado_inci)) "solucionado"
      || strContains (stripStr (lowerStr estado_inci)) "solucionada" then
    if dias_desde_inci.getD 0 ≤ PRIORITY_MEDIUM_MONITOR_DAYS then "MEDIA" else "N/A"
  else if strContains (stripStr (lowerStr estado_inci)) "paralizada" then "MEDIA"
  else if disponibilidad < THRESHOLD_CRITICAL then
    if dias_desde_inci.getD 0 ≤ PRIORITY_HIGH_MAX_DAYS then "ALTA" else "MEDIA"
  else "N/A"

/-- Python `round(x)` for rationals: round half to even (bankers rounding). -/
def roundHalfEven (x : ℚ) : Int :=
  let n := ⌊x⌋
  let frac := x - n
  if frac < 1/2 then n
  else if 1/2 < frac then n + 1
  else if n % 2 = 0 then n else n + 1

/-- Python `round(x, 2)` for rationals. -/
def pyRound2 (x : ℚ) : ℚ := (roundHalfEven (x * 100) : ℚ) / 100

/-- `calcular_disponibilidad` (generador_reportes/02_calcular_disponibilidad.py
lines 51-66): `None` or `0` expected data yields `0.0`, otherwise
`round(correct / expected * 100, 2)`. -/
def calcular_disponibilidad (datos_correctos : ℚ) (datos_esperados : Option ℚ) : ℚ :=
  match datos_esperados with
  | none => 0
  | some e => if e = 0 then 0 else pyRound2 (datos_correctos / e * 100)

/-- `clasificar_disponibilidad` (01_procesamiento.py lines 158-177). -/
def clasificar_disponibilidad (disponibilidad : Option ℚ) : String :=
  match disponibilidad with
  | none => "No recibido en el período"
  | some p =>
    if p = 0 then "No recibido en el período"
    else if p > 100 then "Más del 100%"
    else if p ≥ 80 then "Normal (≥ 80%)"
    else if p ≥ 30 then "Problemas de disponibilidad (≥ 30%)"
    else "Problemas de disponibilidad (< 30%)"

/-- `clasificar_var_disp_num` (generador_reportes/02_postproceso.py lines
33-50); `none` stands for a NaN / unparseable value. -/
def clasificar_var_disp_num (p : Option ℚ) : String :=
  match p with
  | none => "No recibido en el período"
  | some p =>
    if p > 100 then "Más del 100%"
    else if p ≥ 80 then "Normal (≥ 80%)"
    else if p ≥ 30 then "Problemas de disponibilidad (≥ 30%)"
    else if p > 0 then "Problemas de disponibilidad (< 30%)"
    else if p = 0 then "No recibido en el período"
    else "No recibido en el período"

/-- Severity rank of an availability bucket, from the ordering in the spec:
not received > severe shortage (< 30%) > shortage (≥ 30%) > normal. -/
def severidad (bucket : String) : Nat :=
  if bucket = "No recibido en el período" then 3
  else if bucket = "Problemas de disponibilidad (< 30%)" then 2
  else if bucket = "Problemas de disponibilidad (≥ 30%)" then 1
  else 0

/-- A row of the previous-period "POR ESTACION" sheet, as read by
02_postproceso.py: key columns plus the incident carry-over columns. -/
structure PrevRow where
  dz : Int
  estacion : String
  disponibilidad : Option ℚ
  f_inci : Option Int
  estado_inci : Option String
  comentario : Option String
deriving DecidableEq

/-- A row of the current-period "POR ESTACION" sheet (no incident columns). -/
structure ActRow where
  dz : Int
  estacion : String
  disponibilidad : Option ℚ
deriving DecidableEq

/-- The pandas `_merge` indicator column of the outer merge. -/
inductive MergeFlag
  | both
  | left_only
  | right_only
deriving DecidableEq

/-- A row of `merged` (02_postproceso.py line 139): current columns, previous
columns and the merge indicator.  Columns absent on one side are `none`. -/
structure MergedRow where
  dz : Int
  estacion : String
  disponibilidad_act : Option ℚ
  var_disp_act : Option String
  disponibilidad_prev : Option ℚ
  var_disp_prev : Option String
  f_inci : Option Int
  estado_inci : Option String
  comentario : Option String
  merge_flag : MergeFlag
deriving DecidableEq

/-- The dict returned by `determinar_estado`. -/
structure EstadoRes where
  estado_inci : String
  f_inci : Option Int
  comentario : Option String
deriving DecidableEq

/-- The helper `is_incidence` inside `determinar_estado`
(02_postproceso.py lines 159-160). -/
def is_incidence (var : Option String) : Bool :=
  match var with
  | none => false
  | some v => v != "Normal (≥ 80%)"

/-- `determinar_estado` (generador_reportes/02_postproceso.py lines 142-220). -/
def determinar_estado (row : MergedRow) (fecha_ref : Int) : EstadoRes :=
  match row.merge_flag with
  | MergeFlag.right_only =>
      ⟨row.estado_inci.getD "Sin incidencia", row.f_inci, row.comentario⟩
  | MergeFlag.left_only =>
      match row.var_disp_act with
      | none => ⟨"Sin incidencia", none, none⟩
      | some v =>
          if is_incidence (some v) then ⟨"Nueva", none, none⟩
          else ⟨"Sin incidencia", none, none⟩
  | MergeFlag.both =>
      let var_act := row.var_disp_act.getD "No recibido en el período"
      if ¬ is_incidence (some var_act) then
        if row.estado_inci = some "Nueva" ∨ row.estado_inci = some "Recurrente" then
          ⟨"Solucionado", row.f_inci, row.comentario⟩
        else
          ⟨"Sin incidencia", none, row.comentario⟩
      else
        if row.estado_inci = none ∨ row.estado_inci = some "Sin incidencia" then
          ⟨"Nueva", none, none⟩
        else if row.estado_inci = some "Nueva" then
          match row.f_inci with
          | none => ⟨"Recurrente", none, row.comentario⟩
          | some d =>
              if fecha_ref - d > 5 then ⟨"Recurrente", some d, row.comentario⟩
              else ⟨"Nueva", some d, row.comentario⟩
        else if row.estado_inci = some "Recurrente" then
          ⟨"Recurrente", row.f_inci, row.comentario⟩
        else
          ⟨"Nueva", none, none⟩

/-- `df_act_proc` row (02_postproceso.py lines 116-134): stripped station
name and the bucket computed by `clasificar_var_disp_num`. -/
structure ActProc where
  dz : Int
  estacion : String
  disponibilidad_act : Option ℚ
  var_disp_act : String
deriving DecidableEq

/-- `df_prev_proc` row (02_postproceso.py lines 116-136). -/
structure PrevProc where
  dz : Int
  estacion : String
  disponibilidad_prev : Option ℚ
  var_disp_prev : String
  f_inci : Option Int
  estado_inci : Option String
  comentario : Option String
deriving DecidableEq

/-- Preprocessing of a current-period row (strip the station name, classify
the numeric availability), 02_postproceso.py lines 116-134. -/
def prepAct (a : ActRow) : ActProc :=
  ⟨a.dz, stripStr a.estacion, a.disponibilidad, clasificar_var_disp_num a.disponibilidad⟩

/-- Preprocessing of a previous-period row, 02_postproceso.py lines 116-136. -/
def prepPrev (p : PrevRow) : PrevProc :=
  ⟨p.dz, stripStr p.estacion, p.disponibilidad, clasificar_var_disp_num p.disponibilidad,
   p.f_inci, p.estado_inci, p.comentario⟩

/-- A merged row for a current-period row with no previous-period match. -/
def mergedLeft (a : ActProc) : MergedRow :=
  ⟨a.dz, a.estacion, a.disponibilidad_act, some a.var_disp_act,
   none, none, none, none, none, MergeFlag.left_only⟩

/-- A merged row for a key-matching pair of current and previous rows. -/
def mergedBoth (a : ActProc) (p : PrevProc) : MergedRow :=
  ⟨a.dz, a.estacion, a.disponibilidad_act, some a.var_disp_act,
   p.disponibilidad_prev, some p.var_disp_prev, p.f_inci, p.estado_inci,
   p.comentario, MergeFlag.both⟩

/-- A merged row for a previous-period row with no current-period match. -/
def mergedRight (p : PrevProc) : MergedRow :=
  ⟨p.dz, p.estacion, none, none, p.disponibilidad_prev,
   some p.var_disp_prev, p.f_inci, p.estado_inci, p.comentario,
   MergeFlag.right_only⟩

/-- Key equality on (DZ, Estacion) between a current and a previous row. -/
def keyMatch (a : ActProc) (p : PrevProc) : Bool :=
  a.dz == p.dz && a.estacion == p.estacion

/-- Whether some current row matches the key of the previous row. -/
def actMatch (act : List ActProc) (p : PrevProc) : Bool :=
  act.any (fun a => keyMatch a p)

/-- Whether no current row matches the key of the previous row. -/
def noActMatch (act : List ActProc) (p : PrevProc) : Bool := ¬ actMatch act p

/-- The outer merge on (DZ, Estacion) with indicator (02_postproceso.py line
139): every current row paired with each key-matching previous row (or alone,
flagged `left_only`), followed by the unmatched previous rows flagged
`right_only`. -/
def mergeOuter (act : List ActProc) (prev : List PrevProc) : List MergedRow :=
  (act.flatMap (fun a =>
    if prev.filter (keyMatch a) = [] then [mergedLeft a]
    else (prev.filter (keyMatch a)).map (mergedBoth a)))
  ++ ((prev.filter (noActMatch act)).map mergedRight)

/-- One entry of `res_list` (02_postproceso.py lines 226-239). -/
structure ResRow where
  dz : Int
  estacion : String
  disponibilidad : Option ℚ
  var_disp : String
  f_inci : Option Int
  estado_inci : String
  comentario : Option String
  fuente : String
deriving DecidableEq

/-- Builds one `res` entry from a merged row (02_postproceso.py lines 224-239),
including the re-classification of a missing `var_disp`. -/
def buildRes (row : MergedRow) (fecha_ref : Int) : ResRow :=
  let r := determinar_estado row fecha_ref
  let disponibilidad : Option ℚ :=
    if row.merge_flag = MergeFlag.both ∨ row.merge_flag = MergeFlag.left_only
    then row.disponibilidad_act else some 0
  let var_disp0 : Option String :=
    if (row.merge_flag = MergeFlag.both ∨ row.merge_flag = MergeFlag.left_only)
        ∧ row.var_disp_act.isSome
    then row.var_disp_act else row.var_disp_prev
  let var_disp : String :=
    match var_disp0 with
    | some v => v
    | none => clasificar_var_disp_num disponibilidad
  let fuente : String :=
    match row.merge_flag with
    | MergeFlag.both => "ambos"
    | MergeFlag.left_only => "actual"
    | MergeFlag.right_only => "anterior"
  ⟨row.dz, row.estacion, disponibilidad, var_disp, r.f_inci, r.estado_inci,
   r.comentario, fuente⟩

/-- A row of `df_final` after the type normalisation of 02_postproceso.py
lines 241-247 (second strip of the station name, numeric availability with
NaN filled by 0). -/
structure FinalRow where
  dz : Int
  estacion : String
  disponibilidad : ℚ
  var_disp : String
  f_inci : Option Int
  estado_inci : String
  comentario : Option String
  fuente : String
deriving DecidableEq

/-- The normalisation of 02_postproceso.py lines 244-246. -/
def finalizeRow (r : ResRow) : FinalRow :=
  ⟨r.dz, stripStr r.estacion, r.disponibilidad.getD 0, r.var_disp, r.f_inci,
   r.estado_inci, r.comentario, r.fuente⟩

/-- Sort key of `df_final.sort_values(by=["DZ", "Estacion"])`. -/
def rowLE (a b : FinalRow) : Prop :=
  a.dz < b.dz ∨ (a.dz = b.dz ∧ a.estacion ≤ b.estacion)

instance : DecidableRel rowLE := fun a b => by unfold rowLE; infer_instance

/-- The whole consolidation pipeline of 02_postproceso.py lines 100-247:
preprocess both sheets, outer-merge on (DZ, Estacion), build the consolidated
rows, normalise and sort. -/
def consolidar (act : List ActRow) (prev : List PrevRow) (fecha_ref : Int) :
    List FinalRow :=
  List.insertionSort rowLE
    ((mergeOuter (act.map prepAct) (prev.map prepPrev)).map
      (fun r => finalizeRow (buildRes r fecha_ref)))

/-- A processed station row as consumed by `detectar_problemas_ocultos`
(only the columns the function reads). -/
structure EstRowP where
  dz : Int
  estacion : String
  disponibilidad_norm : ℚ
deriving DecidableEq

/-- A processed sensor row ("POR EQUIPAMIENTO") as consumed by
`detectar_problemas_ocultos`. -/
structure SenRowP where
  dz : Int
  estacion : String
  sensor : String
  disponibilidad_norm : ℚ
deriving DecidableEq

/-- A processed variable row ("POR VARIABLE") as consumed by
`detectar_problemas_ocultos`; the sheet carries a `Variable` name column. -/
structure VarRowP where
  dz : Int
  estacion : String
  sensor : String
  nombre_variable : String
  frecuencia : String
  disponibilidad_norm : ℚ
deriving DecidableEq

/-- An intermediate hidden-problem row before the gap columns are added
(`disponibilidad_estacion` may be missing after the left merge of type 2). -/
structure OcultoRow where
  dz : Int
  estacion : String
  sensor : String
  disponibilidad_referencia : ℚ
  disponibilidad_estacion : Option ℚ
  nivel : String
  nombre : String
  disponibilidad_item : ℚ
deriving DecidableEq

/-- A returned hidden-problem row with `brecha` and `es_significativa`. -/
structure OcultoFinal where
  dz : Int
  estacion : String
  sensor : String
  disponibilidad_referencia : ℚ
  disponibilidad_estacion : ℚ
  nivel : String
  nombre : String
  disponibilidad_item : ℚ
  brecha : ℚ
  es_significativa : Bool
deriving DecidableEq

/-- `DataProcessor.detectar_problemas_ocultos` (modules/data_processor.py
lines 454-559): type-1 rows (station at/above threshold, sensor below) and
type-2 rows (sensor at/above threshold, variable below, station availability
joined for context), then gap columns, sort by gap descending and duplicate
removal. -/
def detectar_problemas_ocultos (df_variables : List VarRowP)
    (df_sensores : List SenRowP) (df_estaciones : List EstRowP)
    (umbral : ℚ) : List OcultoFinal :=
  let df_sens := df_sensores.filter (fun s => s.disponibilidad_norm ≤ 100)
  let df_var := df_variables.filter (fun v => v.disponibilidad_norm ≤ 100)
  let est_base := df_estaciones
  let est_ok := est_base.filter (fun e => e.disponibilidad_norm ≥ umbral)
  let sens_criticos := df_sens.filter (fun s => s.disponibilidad_norm < umbral)
  let tipo1 : List OcultoRow :=
    est_ok.flatMap (fun e =>
      (sens_criticos.filter (fun s => s.dz == e.dz && s.estacion == e.estacion)).map
        (fun s => ⟨e.dz, e.estacion, s.sensor, e.disponibilidad_norm,
                   some e.disponibilidad_norm, "Sensor", s.sensor,
                   s.disponibilidad_norm⟩))
  let sens_ok := df_sens.filter (fun s => s.disponibilidad_norm ≥ umbral)
  let var_criticas := dropDup (df_var.filter (fun v => v.disponibilidad_norm < umbral))
  let tipo2 : List OcultoRow :=
    sens_ok.flatMap (fun s =>
      (var_criticas.filter (fun v =>
          v.dz == s.dz && v.estacion == s.estacion && v.sensor == s.sensor)).flatMap
        (fun v =>
          let nombre := v.nombre_variable ++ " [" ++ v.frecuencia ++ "]"
          match est_base.filter (fun e => e.dz == s.dz && e.estacion == s.estacion) with
          | [] => [⟨s.dz, s.estacion, s.sensor, s.disponibilidad_norm, none,
                    "Variable", nombre, v.disponibilidad_norm⟩]
          | es => es.map (fun e =>
              ⟨s.dz, s.estacion, s.sensor, s.disponibilidad_norm,
               some e.disponibilidad_norm, "Variable", nombre,
               v.disponibilidad_norm⟩)))
  let filled := (tipo1 ++ tipo2).map (fun r =>
    let brecha := r.disponibilidad_referencia - r.disponibilidad_item
    (⟨r.dz, r.estacion, r.sensor, r.disponibilidad_referencia,
      r.disponibilidad_estacion.getD 0, r.nivel, r.nombre,
      r.disponibilidad_item, brecha, decide (brecha ≥ 30)⟩ : OcultoFinal))
  dropDup (List.insertionSort (fun a b => b.brecha ≤ a.brecha) filled)

/-- `ExcelFileHandler.validar_columnas` (modules/file_handler.py lines
118-144).  The raised `FileValidationError` is modelled structurally as the
pair (sheet name, missing required column names) that the Python message
interpolates.  The iteration order of the Python set of missing lowered keys
is unspecified; it is modelled as first-appearance order in the required
list.  As in the Python dict comprehension, the reported original-case name
of a missing key is its last occurrence in the required list. -/
def validar_columnas (columnas_df columnas_requeridas : List String)
    (nombre_hoja : String) : Except (String × List String) Unit :=
  let df_keys := columnas_df.map lowerStr
  let req_keys := dropDup (columnas_requeridas.map lowerStr)
  let faltantes := req_keys.filter (fun k => ¬ df_keys.contains k)
  if faltantes = [] then Except.ok ()
  else Except.error (nombre_hoja,
    faltantes.map (fun k =>
      (columnas_requeridas.reverse.find? (fun c => lowerStr c == k)).getD k))

/-! ### Helper lemmas about `dropDup` and `stripStr` -/

theorem mem_foldl_dedup {α} [DecidableEq α] (l acc : List α) (x : α) :
    x ∈ l.foldl (fun acc a => if a ∈ acc then acc else acc ++ [a]) acc
      ↔ x ∈ acc ∨ x ∈ l := by
  induction l generalizing acc with
  | nil => simp
  | cons a as ih =>
    simp only [List.foldl_cons]
    by_cases h : a ∈ acc
    · rw [if_pos h, ih]
      simp only [List.mem_cons]
      constructor
      · rintro (hx | hx)
        · exact Or.inl hx
        · exact Or.inr (Or.inr hx)
      · rintro (hx | rfl | hx)
        · exact Or.inl hx
        · exact Or.inl h
        · exact Or.inr hx
    · rw [if_neg h, ih]
      simp only [List.mem_append, List.mem_cons, List.mem_singleton]
      tauto

theorem mem_dropDup {α} [DecidableEq α] (l : List α) (x : α) :
    x ∈ dropDup l ↔ x ∈ l := by
  unfold dropDup
  rw [mem_foldl_dedup]
  simp

theorem dropWhile_idem (p : α → Bool) (l : List α) :
    (l.dropWhile p).dropWhile p = l.dropWhile p := by
  induction l with
  | nil => rfl
  | cons a as ih =>
    cases hpa : p a
    · rw [List.dropWhile_cons_of_neg (by simp [hpa]),
        List.dropWhile_cons_of_neg (by simp [hpa])]
    · rw [List.dropWhile_cons_of_pos hpa]
      exact ih

theorem head?_dropWhile_false (p : α → Bool) (l : List α) (c : α)
    (h : (l.dropWhile p).head? = some c) : p c = false := by
  induction l with
  | nil => simp [List.dropWhile] at h
  | cons a as ih =>
    cases hpa : p a
    · rw [List.dropWhile_cons_of_neg (by simp [hpa])] at h
      simp only [List.head?_cons, Option.some.injEq] at h
      rw [← h]
      exact hpa
    · rw [List.dropWhile_cons_of_pos hpa] at h
      exact ih h

theorem getLast?_dropWhile (p : α → Bool) (l : List α)
    (h : l.dropWhile p ≠ []) : (l.dropWhile p).getLast? = l.getLast? := by
  induction l with
  | nil => simp [List.dropWhile] at h
  | cons a as ih =>
    cases hpa : p a
    · rw [List.dropWhile_cons_of_neg (by simp [hpa])]
    · rw [List.dropWhile_cons_of_pos hpa] at h ⊢
      rw [ih h]
      cases as with
      | nil => simp [List.dropWhile] at h
      | cons b bs => rw [List.getLast?_cons_cons]

theorem dropWhile_eq_self_of_head (p : α → Bool) (l : List α)
    (h : ∀ c, l.head? = some c → p c = false) : l.dropWhile p = l := by
  cases l with
  | nil => rfl
  | cons a as =>
    have ha := h a (by simp)
    rw [List.dropWhile_cons_of_neg (by simp [ha])]

theorem stripL_idem (l : List Char) : stripL (stripL l) = stripL l := by
  unfold stripL
  have h1 : (((l.dropWhile wsp).reverse.dropWhile wsp).reverse).dropWhile wsp
      = ((l.dropWhile wsp).reverse.dropWhile wsp).reverse := by
    apply dropWhile_eq_self_of_head
    intro c hc
    rw [List.head?_reverse] at hc
    have hne : ((l.dropWhile wsp).reverse).dropWhile wsp ≠ [] := by
      intro h0
      rw [h0] at hc
      simp at hc
    rw [getLast?_dropWhile _ _ hne, List.getLast?_reverse] at hc
    exact head?_dropWhile_false wsp _ c hc
  rw [h1, List.reverse_reverse, dropWhile_idem]

theorem stripStr_idem (s : String) : stripStr (stripStr s) = stripStr s := by
  unfold stripStr
  exact congrArg String.mk (stripL_idem s.data)

/-! ### C1: dormancy precedence in the priority classifier -/

/-- C1: for every incident-state string, every non-null `dias_desde_inci ≥ 90`
and every availability ≤ 0.5, `clasificar_prioridad` returns "BAJA",
overriding any explicit state (including ones containing "nueva"); and the
only rule checked before it — the N/A rule — applies to null days with
availability ≥ 80. -/
theorem claim_c1 (estado : String) (d : Int) (disp disp' : ℚ)
    (hd : 90 ≤ d) (hdisp : disp ≤ 1/2) (hge : 80 ≤ disp') :
    clasificar_prioridad estado (some d) disp = "BAJA"
    ∧ clasificar_prioridad estado none disp' = "N/A" := by
  constructor
  · unfold clasificar_prioridad
    rw [if_neg (by rintro ⟨h, -⟩; exact Option.some_ne_none d h),
      if_pos ⟨hdisp, hd⟩]
  · unfold clasificar_prioridad
    rw [if_pos ⟨rfl, hge⟩]

/-- Witness for C1: a state containing "nueva", 100 elapsed days and
availability 0.3 is classified "BAJA". -/
theorem claim_c1_wit :
    ((90:Int) ≤ 100 ∧ (3:ℚ)/10 ≤ 1/2 ∧ (80:ℚ) ≤ 95)
    ∧ clasificar_prioridad "Nueva" (some 100) (3/10) = "BAJA"
    ∧ clasificar_prioridad "Nueva" none 95 = "N/A" :=
  ⟨⟨by decide, by norm_num, by norm_num⟩,
   (claim_c1 "Nueva" 100 (3/10) 95 (by decide) (by norm_num) (by norm_num)).1,
   (claim_c1 "Nueva" 100 (3/10) 95 (by decide) (by norm_num) (by norm_num)).2⟩

/-! ### C5: division safety of the availability calculator -/

/-- Bankers rounding of an integer-valued rational is the integer itself. -/
theorem roundHalfEven_intCast (n : Int) : roundHalfEven (n : ℚ) = n := by
  unfold roundHalfEven
  rw [Int.floor_intCast, if_pos (by norm_num)]

/-- C5 counterexample: the claim states that any expected value ≤ 0 yields
exactly 0.0, but for the negative expected count -1 the code divides and
returns -10000.0. -/
theorem claim_c5_cex :
    (-1 : ℚ) ≤ 0 ∧ calcular_disponibilidad 100 (some (-1)) = -10000
    ∧ calcular_disponibilidad 100 (some (-1)) ≠ 0 := by
  have h : calcular_disponibilidad 100 (some (-1)) = -10000 := by
    simp only [calcular_disponibilidad]
    rw [if_neg (by norm_num)]
    have h1 : (100:ℚ) / -1 * 100 = ((-10000 : Int) : ℚ) := by norm_num
    rw [h1]
    unfold pyRound2
    have h2 : ((-10000 : Int) : ℚ) * 100 = ((-1000000 : Int) : ℚ) := by norm_num
    rw [h2, roundHalfEven_intCast]
    norm_num
  exact ⟨by norm_num, h, by rw [h]; norm_num⟩

/-- C5 amended: `calcular_disponibilidad` returns exactly 0.0 when the
expected count is null or equal to 0 (never dividing by zero and never
returning null); for every other expected value e — including negative ones —
it returns `round(c / e * 100, 2)`, with values above 100 not clamped. -/
theorem claim_c5_amended (c e : ℚ) :
    calcular_disponibilidad c none = 0
    ∧ calcular_disponibilidad c (some 0) = 0
    ∧ (e ≠ 0 → calcular_disponibilidad c (some e) = pyRound2 (c / e * 100)) := by
  refine ⟨rfl, by simp [calcular_disponibilidad], fun he => ?_⟩
  simp [calcular_disponibilidad, he]

/-- Witness for C5 (amended): 300 correct over 200 expected gives the
unclamped rounded ratio. -/
theorem claim_c5_wit :
    (200:ℚ) ≠ 0 ∧ calcular_disponibilidad 300 (some 200) = pyRound2 (300 / 200 * 100) :=
  ⟨by norm_num, (claim_c5_amended 300 200).2.2 (by norm_num)⟩

/-! ### Projection lemmas for the consolidation pipeline -/

theorem prepAct_dz (a : ActRow) : (prepAct a).dz = a.dz := rfl

theorem prepAct_estacion (a : ActRow) : (prepAct a).estacion = stripStr a.estacion := rfl

theorem prepPrev_dz (p : PrevRow) : (prepPrev p).dz = p.dz := rfl

theorem prepPrev_estacion (p : PrevRow) :
    (prepPrev p).estacion = stripStr p.estacion := rfl

theorem finBuild_dz (m : MergedRow) (ref : Int) :
    (finalizeRow (buildRes m ref)).dz = m.dz := rfl

theorem finBuild_estacion (m : MergedRow) (ref : Int) :
    (finalizeRow (buildRes m ref)).estacion = stripStr m.estacion := rfl

theorem mergedLeft_dz (a : ActProc) : (mergedLeft a).dz = a.dz := rfl

theorem mergedLeft_estacion (a : ActProc) : (mergedLeft a).estacion = a.estacion := rfl

theorem mergedBoth_dz (a : ActProc) (p : PrevProc) : (mergedBoth a p).dz = a.dz := rfl

theorem mergedBoth_estacion (a : ActProc) (p : PrevProc) :
    (mergedBoth a p).estacion = a.estacion := rfl

theorem mergedRight_dz (p : PrevProc) : (mergedRight p).dz = p.dz := rfl

theorem mergedRight_estacion (p : PrevProc) :
    (mergedRight p).estacion = p.estacion := rfl

theorem eq_cons_of_filter_eq_singleton {α} (pr : α → Bool) (l : List α) (a : α)
    (h : l.filter pr = [a]) :
    ∃ l1 l2, l = l1 ++ a :: l2 ∧ pr a = true
      ∧ (∀ x ∈ l1, pr x = false) ∧ (∀ x ∈ l2, pr x = false) := by
  induction l with
  | nil => simp at h
  | cons b bs ih =>
    rw [List.filter_cons] at h
    by_cases hb : pr b = true
    · rw [if_pos hb] at h
      injection h with h1 h2
      subst h1
      refine ⟨[], bs, rfl, hb, by simp, fun x hx => ?_⟩
      exact Bool.eq_false_iff.mpr (List.filter_eq_nil_iff.1 h2 x hx)
    · rw [if_neg hb] at h
      obtain ⟨l1, l2, hsplit, ha, hl1, hl2⟩ := ih h
      refine ⟨b :: l1, l2, by rw [hsplit]; simp, ha, fun x hx => ?_, hl2⟩
      rcases List.mem_cons.1 hx with rfl | hx'
      · exact Bool.eq_false_iff.mpr hb
      · exact hl1 x hx'

/-! ### C2: no dormancy override in the reconciler -/

/-- C2 counterexample: with current availability 0.3% (bucket "Problemas de
disponibilidad (< 30%)") and 100 ≥ 90 days elapsed since the start date,
`determinar_estado` returns "Recurrente" — not a dormant/"Paralizada"
state as the claim asserts. -/
theorem claim_c2_cex :
    ((3:ℚ)/10 ≤ 1/2 ∧ (100:Int) - 0 ≥ 90)
    ∧ clasificar_var_disp_num (some (3/10)) = "Problemas de disponibilidad (< 30%)"
    ∧ determinar_estado ⟨1, "EST", some (3/10),
        some (clasificar_var_disp_num (some (3/10))), none,
        some "Problemas de disponibilidad (< 30%)", some 0, some "Nueva", none,
        MergeFlag.both⟩ 100 = ⟨"Recurrente", some 0, none⟩
    ∧ ("Recurrente" : String) ≠ "Paralizada" := by
  have hb : clasificar_var_disp_num (some ((3:ℚ)/10))
      = "Problemas de disponibilidad (< 30%)" := by
    simp only [clasificar_var_disp_num]
    rw [if_neg (by norm_num), if_neg (by norm_num), if_neg (by norm_num),
      if_pos (by norm_num)]
  refine ⟨⟨by norm_num, by decide⟩, hb, ?_, by decide⟩
  rw [hb]
  simp [determinar_estado, is_incidence]

/-- C2 amended: `determinar_estado` contains no dormancy override — for any
station present in the current period (merge flag ≠ `right_only`) the produced
incident state is always one of "Sin incidencia", "Nueva", "Recurrente",
"Solucionado", never a dormant/"Paralizada" state, irrespective of the current
availability and of the days elapsed.  Dormancy (≥ 90 days and availability
≤ 0.5%) is reflected only in the priority classifier `clasificar_prioridad`,
which returns "BAJA" for it. -/
theorem claim_c2 (row : MergedRow) (ref : Int)
    (h : row.merge_flag ≠ MergeFlag.right_only) :
    (determinar_estado row ref).estado_inci
      ∈ (["Sin incidencia", "Nueva", "Recurrente", "Solucionado"] : List String) := by
  rcases row with ⟨dz, est, da, va, dp, vp, fi, eo, com, mf⟩
  cases mf with
  | right_only => exact absurd rfl h
  | left_only =>
    cases va with
    | none => simp [determinar_estado]
    | some v =>
      by_cases hv : is_incidence (some v) = true <;> simp [determinar_estado, hv]
  | both =>
    cases fi <;>
    · simp only [determinar_estado]
      split_ifs <;> simp_all

/-- Witness for C2 (amended), at a row whose previous state is "Paralizada":
the reconciler still produces one of the four table states. -/
theorem claim_c2_wit :
    (MergeFlag.both ≠ MergeFlag.right_only)
    ∧ (determinar_estado ⟨1, "EST", none, some "No recibido en el período",
        none, none, none, some "Paralizada", none, MergeFlag.both⟩ 50).estado_inci
      ∈ (["Sin incidencia", "Nueva", "Recurrente", "Solucionado"] : List String) :=
  ⟨by decide,
   claim_c2 ⟨1, "EST", none, some "No recibido en el período", none, none, none,
     some "Paralizada", none, MergeFlag.both⟩ 50 (by decide)⟩

/-! ### C3: transitions from previous state "Nueva" -/

/-- C3 counterexample: previous state "Nueva" with start date 0 and an ok
current bucket at reference date 100 (elapsed 100 > 5 days) returns
"Solucionado", not the "no incident" the claim asserts for > 5 days. -/
theorem claim_c3_cex :
    ((100:Int) - 0 > 5)
    ∧ determinar_estado ⟨1, "EST", some 90, some "Normal (≥ 80%)", some 50,
        some "Problemas de disponibilidad (< 30%)", some 0, some "Nueva", none,
        MergeFlag.both⟩ 100 = ⟨"Solucionado", some 0, none⟩
    ∧ ("Solucionado" : String) ≠ "Sin incidencia" := by
  refine ⟨by decide, ?_, by decide⟩
  simp [determinar_estado, is_incidence]

/-- C3 amended: for a previous record in state "Nueva" with a valid start
date, the bucket "Normal (≥ 80%)" always yields "Solucionado" keeping the
start date (there is no 5-day check on resolution), while every other bucket
(including "Más del 100%", which the code treats as an incidence) yields
"Recurrente" when (reference − start) > 5 days and "Nueva" (keeping the start
date) otherwise. -/
theorem claim_c3 (dz : Int) (est : String) (da dp : Option ℚ)
    (vp com : Option String) (d ref : Int) :
    determinar_estado ⟨dz, est, da, some "Normal (≥ 80%)", dp, vp, some d,
        some "Nueva", com, MergeFlag.both⟩ ref = ⟨"Solucionado", some d, com⟩
    ∧ ∀ v : String, v ≠ "Normal (≥ 80%)" →
        determinar_estado ⟨dz, est, da, some v, dp, vp, some d, some "Nueva",
            com, MergeFlag.both⟩ ref
          = if ref - d > 5 then ⟨"Recurrente", some d, com⟩
            else ⟨"Nueva", some d, com⟩ := by
  constructor
  · simp [determinar_estado, is_incidence]
  · intro v hv
    simp [determinar_estado, is_incidence, hv]

/-- Witness for C3 (amended) at start date 10, reference date 12 and the
bucket "Más del 100%". -/
theorem claim_c3_wit :
    (("Más del 100%" : String) ≠ "Normal (≥ 80%)")
    ∧ determinar_estado ⟨1, "EST", none, some "Normal (≥ 80%)", none, none,
        some 10, some "Nueva", none, MergeFlag.both⟩ 12 = ⟨"Solucionado", some 10, none⟩
    ∧ determinar_estado ⟨1, "EST", none, some "Más del 100%", none, none,
        some 10, some "Nueva", none, MergeFlag.both⟩ 12
      = if (12:Int) - 10 > 5 then ⟨"Recurrente", some 10, none⟩
        else ⟨"Nueva", some 10, none⟩ :=
  ⟨by decide,
   (claim_c3 1 "EST" none none none none 10 12).1,
   (claim_c3 1 "EST" none none none none 10 12).2 "Más del 100%" (by decide)⟩

/-! ### C4: transitions from previous state "Solucionado" -/

/-- C4 counterexample: previous state "Solucionado" with start date 0 and an
ok bucket at reference date 3 (within the claimed 5-day window) returns
"Sin incidencia" with the start date cleared — not the "Solucionado" the
claim asserts; moreover on a critical bucket the start date is left unset,
not set to the reference date. -/
theorem claim_c4_cex :
    ((3:Int) - 0 ≤ 5)
    ∧ determinar_estado ⟨1, "EST", some 90, some "Normal (≥ 80%)", some 85,
        some "Normal (≥ 80%)", some 0, some "Solucionado", some "obs",
        MergeFlag.both⟩ 3 = ⟨"Sin incidencia", none, some "obs"⟩
    ∧ ("Sin incidencia" : String) ≠ "Solucionado"
    ∧ determinar_estado ⟨1, "EST", some 10, some "No recibido en el período",
        some 85, some "Normal (≥ 80%)", some 0, some "Solucionado", some "obs",
        MergeFlag.both⟩ 3 = ⟨"Nueva", none, none⟩
    ∧ (none : Option Int) ≠ some 3 := by
  refine ⟨by decide, ?_, by decide, ?_, by decide⟩
  · simp [determinar_estado, is_incidence]
  · simp [determinar_estado, is_incidence]

/-- C4 amended: for a previous record in state "Solucionado", an ok bucket
("Normal (≥ 80%)") always yields "Sin incidencia" (keeping the comment,
clearing the start date, with no 5-day monitoring window), and any other
bucket yields "Nueva" with the start date left unset (not set to the
reference date). -/
theorem claim_c4 (dz : Int) (est : String) (da dp : Option ℚ)
    (vp com : Option String) (fi : Option Int) (ref : Int) :
    determinar_estado ⟨dz, est, da, some "Normal (≥ 80%)", dp, vp, fi,
        some "Solucionado", com, MergeFlag.both⟩ ref = ⟨"Sin incidencia", none, com⟩
    ∧ ∀ v : String, v ≠ "Normal (≥ 80%)" →
        determinar_estado ⟨dz, est, da, some v, dp, vp, fi,
            some "Solucionado", com, MergeFlag.both⟩ ref = ⟨"Nueva", none, none⟩ := by
  constructor
  · simp [determinar_estado, is_incidence]
  · intro v hv
    simp [determinar_estado, is_incidence, hv]

/-- Witness for C4 (amended). -/
theorem claim_c4_wit :
    (("No recibido en el período" : String) ≠ "Normal (≥ 80%)")
    ∧ determinar_estado ⟨1, "EST", none, some "Normal (≥ 80%)", none, none,
        some 0, some "Solucionado", some "c", MergeFlag.both⟩ 3
      = ⟨"Sin incidencia", none, some "c"⟩
    ∧ determinar_estado ⟨1, "EST", none, some "No recibido en el período", none, none,
        some 0, some "Solucionado", some "c", MergeFlag.both⟩ 3
      = ⟨"Nueva", none, none⟩ :=
  ⟨by decide,
   (claim_c4 1 "EST" none none none (some "c") (some 0) 3).1,
   (claim_c4 1 "EST" none none none (some "c") (some 0) 3).2
     "No recibido en el período" (by decide)⟩

/-! ### C6: the exact 5-day tolerance boundary for state "Nueva" -/

/-- C6: for any start date D, previous state "Nueva": a "Normal (≥ 80%)"
bucket at reference date D+5 resolves to "Solucionado"; a critical bucket at
D+6 escalates to "Recurrente"; a critical bucket at D+4 stays "Nueva". -/
theorem claim_c6 (dz : Int) (est : String) (da dp : Option ℚ)
    (vp com : Option String) (D : Int) :
    (determinar_estado ⟨dz, est, da, some "Normal (≥ 80%)", dp, vp, some D,
        some "Nueva", com, MergeFlag.both⟩ (D + 5)).estado_inci = "Solucionado"
    ∧ ∀ v ∈ (["No recibido en el período", "Problemas de disponibilidad (≥ 30%)",
        "Problemas de disponibilidad (< 30%)"] : List String),
        (determinar_estado ⟨dz, est, da, some v, dp, vp, some D,
            some "Nueva", com, MergeFlag.both⟩ (D + 6)).estado_inci = "Recurrente"
        ∧ (determinar_estado ⟨dz, est, da, some v, dp, vp, some D,
            some "Nueva", com, MergeFlag.both⟩ (D + 4)).estado_inci = "Nueva" := by
  constructor
  · simp [determinar_estado, is_incidence]
  · intro v hv
    have hv' : v ≠ "Normal (≥ 80%)" := by
      simp only [List.mem_cons, List.not_mem_nil, or_false] at hv
      rcases hv with rfl | rfl | rfl <;> decide
    have h6 : D + 6 - D > 5 := by omega
    have h4 : ¬ (D + 4 - D > 5) := by omega
    constructor <;> simp [determinar_estado, is_incidence, hv', h6, h4]

/-- Witness for C6 at D = 0 with the critical bucket "No recibido en el
período". -/
theorem claim_c6_wit :
    ("No recibido en el período" ∈ (["No recibido en el período",
        "Problemas de disponibilidad (≥ 30%)",
        "Problemas de disponibilidad (< 30%)"] : List String))
    ∧ (determinar_estado ⟨1, "EST", none, some "Normal (≥ 80%)", none, none,
        some 0, some "Nueva", none, MergeFlag.both⟩ (0 + 5)).estado_inci = "Solucionado"
    ∧ (determinar_estado ⟨1, "EST", none, some "No recibido en el período", none, none,
        some 0, some "Nueva", none, MergeFlag.both⟩ (0 + 6)).estado_inci = "Recurrente"
    ∧ (determinar_estado ⟨1, "EST", none, some "No recibido en el período", none, none,
        some 0, some "Nueva", none, MergeFlag.both⟩ (0 + 4)).estado_inci = "Nueva" :=
  ⟨by decide,
   (claim_c6 1 "EST" none none none none 0).1,
   ((claim_c6 1 "EST" none none none none 0).2 "No recibido en el período" (by decide)).1,
   ((claim_c6 1 "EST" none none none none 0).2 "No recibido en el período" (by decide)).2⟩

/-! ### C7: bucket monotonicity -/

/-- C7: on [0, 100], a smaller availability percentage is never assigned a
bucket of lower severity rank, for both bucket classifiers
(`clasificar_disponibilidad` of 01_procesamiento.py and
`clasificar_var_disp_num` of 02_postproceso.py). -/
theorem claim_c7 (p1 p2 : ℚ) (h0 : 0 ≤ p1) (h12 : p1 < p2) (h100 : p2 ≤ 100) :
    severidad (clasificar_disponibilidad (some p2))
      ≤ severidad (clasificar_disponibilidad (some p1))
    ∧ severidad (clasificar_var_disp_num (some p2))
      ≤ severidad (clasificar_var_disp_num (some p1)) := by
  constructor <;>
  · simp only [clasificar_disponibilidad, clasificar_var_disp_num]
    split_ifs <;> first | decide | linarith

/-- C8: every row returned by `detectar_problemas_ocultos` satisfies
`brecha = disponibilidad_referencia - disponibilidad_item` and
`es_significativa ↔ brecha ≥ 30`; and for one station at normalised
availability 92 containing one sensor at 45 (threshold 80) the result is
exactly one row with nivel "Sensor", brecha 47 and es_significativa true. -/
theorem claim_c8 :
    (∀ (dv : List VarRowP) (ds : List SenRowP) (de : List EstRowP) (u : ℚ)
        (r : OcultoFinal), r ∈ detectar_problemas_ocultos dv ds de u →
        r.brecha = r.disponibilidad_referencia - r.disponibilidad_item
        ∧ (r.es_significativa = true ↔ r.brecha ≥ 30))
    ∧ detectar_problemas_ocultos [] [⟨1, "EST01", "SEN01", 45⟩] [⟨1, "EST01", 92⟩] 80
      = [⟨1, "EST01", "SEN01", 92, 92, "Sensor", "SEN01", 45, 47, true⟩] := by
  constructor
  · intro dv ds de u r hr
    simp only [detectar_problemas_ocultos] at hr
    rw [mem_dropDup, List.mem_insertionSort, List.mem_map] at hr
    obtain ⟨pre, -, rfl⟩ := hr
    exact ⟨rfl, by simp⟩
  · norm_num [detectar_problemas_ocultos, dropDup, List.insertionSort,
      List.orderedInsert, List.filter_cons, decide_eq_true_eq]

/-- Witness for C8: the scenario row is a member of the returned list and
satisfies the gap invariants. -/
theorem claim_c8_wit :
    ((⟨1, "EST01", "SEN01", 92, 92, "Sensor", "SEN01", 45, 47, true⟩ : OcultoFinal)
        ∈ detectar_problemas_ocultos [] [⟨1, "EST01", "SEN01", 45⟩] [⟨1, "EST01", 92⟩] 80)
    ∧ (47:ℚ) = 92 - 45
    ∧ (true = true ↔ (47:ℚ) ≥ 30) := by
  have hmem : (⟨1, "EST01", "SEN01", 92, 92, "Sensor", "SEN01", 45, 47, true⟩ : OcultoFinal)
      ∈ detectar_problemas_ocultos [] [⟨1, "EST01", "SEN01", 45⟩] [⟨1, "EST01", 92⟩] 80 := by
    rw [claim_c8.2]
    exact List.mem_singleton_self _
  exact ⟨hmem, (claim_c8.1 _ _ _ _ _ hmem).1, (claim_c8.1 _ _ _ _ _ hmem).2⟩

/-- C9: column validation is case-insensitive and fail-explicit —
`validar_columnas` succeeds exactly when every required column is present up
to letter case, and otherwise reports the sheet name together with exactly
the required columns that are case-insensitively absent. -/
theorem validar_pred_iff (cols : List String) (k : String) :
    (decide (¬ ((List.map lowerStr cols).contains k = true))) = true
      ↔ k ∉ List.map lowerStr cols := by
  simp [List.elem_iff]

theorem claim_c9 (cols req : List String) (hoja : String) :
    (validar_columnas cols req hoja = Except.ok () ↔
      ∀ c ∈ req, lowerStr c ∈ cols.map lowerStr)
    ∧ (∀ hoja' falt, validar_columnas cols req hoja = Except.error (hoja', falt) →
        hoja' = hoja
        ∧ (∀ m ∈ falt, m ∈ req ∧ lowerStr m ∉ cols.map lowerStr)
        ∧ (∀ c ∈ req, lowerStr c ∉ cols.map lowerStr →
            ∃ m ∈ falt, lowerStr m = lowerStr c)) := by
  simp only [validar_columnas]
  split_ifs with hcond
  · refine ⟨⟨fun _ c hc => ?_, fun _ => rfl⟩, fun hoja' falt h => by simp at h⟩
    by_contra hnc
    have hkF : lowerStr c ∈ (dropDup (List.map lowerStr req)).filter
        (fun k => decide (¬ ((List.map lowerStr cols).contains k = true))) :=
      List.mem_filter.2 ⟨(mem_dropDup _ _).2 (List.mem_map_of_mem _ hc),
        (validar_pred_iff cols (lowerStr c)).2 hnc⟩
    rw [hcond] at hkF
    exact List.not_mem_nil _ hkF
  · refine ⟨⟨fun h => by simp at h, fun hall => ?_⟩, fun hoja' falt h => ?_⟩
    · exfalso
      obtain ⟨k, hk⟩ := List.exists_mem_of_ne_nil _ hcond
      obtain ⟨hkK, hkp⟩ := List.mem_filter.1 hk
      rw [mem_dropDup] at hkK
      obtain ⟨c, hc, rfl⟩ := List.mem_map.1 hkK
      exact (validar_pred_iff cols (lowerStr c)).1 hkp (hall c hc)
    · injection h with h2
      rw [Prod.mk.injEq] at h2
      obtain ⟨rfl, rfl⟩ := h2
      refine ⟨rfl, fun m hm => ?_, fun c hc hnc => ?_⟩
      · obtain ⟨k, hkF, rfl⟩ := List.mem_map.1 hm
        obtain ⟨hkK, hkp⟩ := List.mem_filter.1 hkF
        rw [mem_dropDup] at hkK
        obtain ⟨c, hc, rfl⟩ := List.mem_map.1 hkK
        have hkp' : lowerStr c ∉ List.map lowerStr cols :=
          (validar_pred_iff cols (lowerStr c)).1 hkp
        cases hfind : List.find? (fun x => lowerStr x == lowerStr c) req.reverse with
        | none =>
          exfalso
          rw [List.find?_eq_none] at hfind
          exact hfind c (List.mem_reverse.2 hc) (by simp)
        | some m' =>
          have hm'mem : m' ∈ req := List.mem_reverse.1 (List.mem_of_find?_eq_some hfind)
          have hm'eq : lowerStr m' = lowerStr c := by
            have hp := List.find?_some hfind
            simpa using hp
          simp only [Option.getD_some]
          exact ⟨hm'mem, hm'eq ▸ hkp'⟩
      · refine ⟨(List.find? (fun x => lowerStr x == lowerStr c) req.reverse).getD
          (lowerStr c), ?_, ?_⟩
        · exact List.mem_map.2 ⟨lowerStr c,
            List.mem_filter.2 ⟨(mem_dropDup _ _).2 (List.mem_map_of_mem _ hc),
              (validar_pred_iff cols (lowerStr c)).2 hnc⟩, rfl⟩
        · cases hfind : List.find? (fun x => lowerStr x == lowerStr c) req.reverse with
          | none =>
            exfalso
            rw [List.find?_eq_none] at hfind
            exact hfind c (List.mem_reverse.2 hc) (by simp)
          | some m' =>
            rw [Option.getD_some]
            have hp := List.find?_some hfind
            simpa using hp

/-- Witness for C9: with present columns {dz, Estacion} and required columns
{DZ, Comentario}, validation fails listing exactly "Comentario" and the sheet
name. -/
theorem claim_c9_wit :
    validar_columnas ["dz", "Estacion"] ["DZ", "Comentario"] "POR ESTACION"
      = Except.error ("POR ESTACION", ["Comentario"])
    ∧ ("POR ESTACION" = "POR ESTACION"
        ∧ (∀ m ∈ ["Comentario"], m ∈ ["DZ", "Comentario"]
            ∧ lowerStr m ∉ List.map lowerStr ["dz", "Estacion"])
        ∧ (∀ c ∈ ["DZ", "Comentario"], lowerStr c ∉ List.map lowerStr ["dz", "Estacion"] →
            ∃ m ∈ ["Comentario"], lowerStr m = lowerStr c)) := by
  have h : validar_columnas ["dz", "Estacion"] ["DZ", "Comentario"] "POR ESTACION"
      = Except.error ("POR ESTACION", ["Comentario"]) := by rfl
  exact ⟨h, (claim_c9 ["dz", "Estacion"] ["DZ", "Comentario"] "POR ESTACION").2
    "POR ESTACION" ["Comentario"] h⟩

/-- Witness for C7 at the pair (10, 50). -/
theorem claim_c7_wit :
    ((0:ℚ) ≤ 10 ∧ (10:ℚ) < 50 ∧ (50:ℚ) ≤ 100)
    ∧ severidad (clasificar_disponibilidad (some 50))
        ≤ severidad (clasificar_disponibilidad (some 10))
    ∧ severidad (clasificar_var_disp_num (some 50))
        ≤ severidad (clasificar_var_disp_num (some 10)) :=
  ⟨⟨by norm_num, by norm_num, by norm_num⟩,
   (claim_c7 10 50 (by norm_num) (by norm_num) (by norm_num)).1,
   (claim_c7 10 50 (by norm_num) (by norm_num) (by norm_num)).2⟩

/-! ### C10: stations present only in the previous period -/

/-- C10: a station key that occurs exactly once in the previous-period
report (with its name given in trimmed form) and not at all in the current
period yields exactly one consolidated row; that row keeps the previous
`estado_inci` (defaulting to "Sin incidencia" when missing), `f_inci` and
`comentario`, but its `disponibilidad` is set to 0.0 regardless of the
availability value of the previous period. -/
theorem claim_c10 (act : List ActRow) (prev : List PrevRow) (fecha_ref dz : Int)
    (est : String) (p : PrevRow)
    (hest : stripStr est = est)
    (hprev : prev.filter (fun r => r.dz == dz && stripStr r.estacion == est) = [p])
    (hact : act.filter (fun r => r.dz == dz && stripStr r.estacion == est) = []) :
    (consolidar act prev fecha_ref).filter
        (fun r => r.dz == dz && r.estacion == est)
      = [⟨dz, est, 0, clasificar_var_disp_num p.disponibilidad, p.f_inci,
          p.estado_inci.getD "Sin incidencia", p.comentario, "anterior"⟩] := by
  obtain ⟨l1, l2, hsplit, hpkey, h1, h2⟩ :=
    eq_cons_of_filter_eq_singleton _ prev p hprev
  have hpk : p.dz = dz ∧ stripStr p.estacion = est := by
    simpa [Bool.and_eq_true, beq_iff_eq] using hpkey
  have hactkey : ∀ a ∈ act, ¬ (a.dz = dz ∧ stripStr a.estacion = est) := by
    intro a ha
    have h := List.filter_eq_nil_iff.1 hact a ha
    simpa [Bool.and_eq_true, beq_iff_eq] using h
  have hactP : ∀ a ∈ act.map prepAct, ¬ (a.dz = dz ∧ a.estacion = est) := by
    intro a ha hk
    obtain ⟨a0, ha0, rfl⟩ := List.mem_map.1 ha
    exact hactkey a0 ha0 ⟨(prepAct_dz a0) ▸ hk.1, (prepAct_estacion a0) ▸ hk.2⟩
  have hAkey : ∀ m ∈ (act.map prepAct).flatMap (fun a =>
      if (prev.map prepPrev).filter (keyMatch a) = [] then [mergedLeft a]
      else ((prev.map prepPrev).filter (keyMatch a)).map (mergedBoth a)),
      ∃ a ∈ act.map prepAct, m.dz = a.dz ∧ m.estacion = a.estacion := by
    intro m hm
    obtain ⟨a, ha, hma⟩ := List.mem_flatMap.1 hm
    refine ⟨a, ha, ?_⟩
    by_cases hfe : (prev.map prepPrev).filter (keyMatch a) = []
    · rw [if_pos hfe] at hma
      simp only [List.mem_singleton] at hma
      subst hma
      exact ⟨mergedLeft_dz a, mergedLeft_estacion a⟩
    · rw [if_neg hfe] at hma
      obtain ⟨p', hp', rfl⟩ := List.mem_map.1 hma
      exact ⟨mergedBoth_dz a p', mergedBoth_estacion a p'⟩
  have hnoMatchP : noActMatch (act.map prepAct) (prepPrev p) = true := by
    have hfalse : actMatch (act.map prepAct) (prepPrev p) = false := by
      unfold actMatch
      rw [List.any_eq_false]
      intro a ha hka
      have hk2 : a.dz = p.dz ∧ a.estacion = stripStr p.estacion := by
        simpa [keyMatch, prepPrev_dz, prepPrev_estacion] using hka
      exact hactP a ha ⟨hk2.1.trans hpk.1, hk2.2.trans hpk.2⟩
    unfold noActMatch
    rw [hfalse]
    rfl
  have hBsplit : (prev.map prepPrev).filter (noActMatch (act.map prepAct))
      = (l1.map prepPrev).filter (noActMatch (act.map prepAct))
        ++ prepPrev p :: (l2.map prepPrev).filter (noActMatch (act.map prepAct)) := by
    rw [hsplit, List.map_append, List.map_cons, List.filter_append, List.filter_cons,
      if_pos hnoMatchP]
  have hBfilter : ∀ lx : List PrevRow,
      (∀ r ∈ lx, (r.dz == dz && stripStr r.estacion == est) = false) →
      ((((lx.map prepPrev).filter (noActMatch (act.map prepAct))).map mergedRight).map
        (fun r => finalizeRow (buildRes r fecha_ref))).filter
        (fun r => r.dz == dz && r.estacion == est) = [] := by
    intro lx hlx
    rw [List.filter_eq_nil_iff]
    intro y hy
    obtain ⟨m, hm, rfl⟩ := List.mem_map.1 hy
    obtain ⟨pp, hpp, rfl⟩ := List.mem_map.1 hm
    obtain ⟨hppP, -⟩ := List.mem_filter.1 hpp
    obtain ⟨r, hr, rfl⟩ := List.mem_map.1 hppP
    have hrf := hlx r hr
    simp only [finBuild_dz, finBuild_estacion, mergedRight_dz, mergedRight_estacion,
      prepPrev_dz, prepPrev_estacion, stripStr_idem, Bool.and_eq_true, beq_iff_eq,
      not_and]
    intro hdz hst
    simp [hdz, hst] at hrf
  have hA : (((act.map prepAct).flatMap (fun a =>
      if (prev.map prepPrev).filter (keyMatch a) = [] then [mergedLeft a]
      else ((prev.map prepPrev).filter (keyMatch a)).map (mergedBoth a))).map
      (fun r => finalizeRow (buildRes r fecha_ref))).filter
      (fun r => r.dz == dz && r.estacion == est) = [] := by
    rw [List.filter_eq_nil_iff]
    intro y hy
    obtain ⟨m, hmA, rfl⟩ := List.mem_map.1 hy
    obtain ⟨a, haP, hkey⟩ := hAkey m hmA
    simp only [finBuild_dz, finBuild_estacion, Bool.and_eq_true, beq_iff_eq, not_and]
    intro hdzEq hestEq
    obtain ⟨a0, ha0, rfl⟩ := List.mem_map.1 haP
    refine hactkey a0 ha0 ⟨?_, ?_⟩
    · rw [← prepAct_dz a0, ← hkey.1]
      exact hdzEq
    · have hcb : stripStr m.estacion = stripStr a0.estacion := by
        rw [hkey.2, prepAct_estacion, stripStr_idem]
      rw [← hcb]
      exact hestEq
  have hq : ((finalizeRow (buildRes (mergedRight (prepPrev p)) fecha_ref)).dz == dz
      && (finalizeRow (buildRes (mergedRight (prepPrev p)) fecha_ref)).estacion == est)
      = true := by
    simp only [finBuild_dz, finBuild_estacion, mergedRight_dz, mergedRight_estacion,
      prepPrev_dz, prepPrev_estacion, stripStr_idem, hpk.1, hpk.2, hest,
      Bool.and_eq_true, beq_iff_eq]
    simp
  have hxval : finalizeRow (buildRes (mergedRight (prepPrev p)) fecha_ref)
      = (⟨dz, est, 0, clasificar_var_disp_num p.disponibilidad, p.f_inci,
          p.estado_inci.getD "Sin incidencia", p.comentario, "anterior"⟩ : FinalRow) := by
    simp [finalizeRow, buildRes, determinar_estado, mergedRight, prepPrev,
      stripStr_idem, hpk.1, hpk.2, hest]
  have hstep : ((mergeOuter (act.map prepAct) (prev.map prepPrev)).map
      (fun r => finalizeRow (buildRes r fecha_ref))).filter
      (fun r => r.dz == dz && r.estacion == est)
      = [⟨dz, est, 0, clasificar_var_disp_num p.disponibilidad, p.f_inci,
          p.estado_inci.getD "Sin incidencia", p.comentario, "anterior"⟩] := by
    unfold mergeOuter
    rw [hBsplit]
    simp only [List.map_append, List.map_cons, List.filter_append, List.filter_cons]
    rw [hA, hBfilter l1 h1, hBfilter l2 h2, if_pos hq, hxval]
    rfl
  have hperm := (List.perm_insertionSort rowLE
    ((mergeOuter (act.map prepAct) (prev.map prepPrev)).map
      (fun r => finalizeRow (buildRes r fecha_ref)))).filter
    (fun r => r.dz == dz && r.estacion == est)
  unfold consolidar
  exact List.perm_singleton.1 (hstep ▸ hperm)

/-- Witness for C10: one previous-period station (7, " E1 ") absent from the
current period is carried over with its incident data and availability 0. -/
theorem claim_c10_wit :
    (stripStr "E1" = "E1")
    ∧ ([⟨7, " E1 ", some 55, some 10, some "Recurrente", some "obs"⟩] :
        List PrevRow).filter (fun r => r.dz == 7 && stripStr r.estacion == "E1")
      = [⟨7, " E1 ", some 55, some 10, some "Recurrente", some "obs"⟩]
    ∧ ([] : List ActRow).filter (fun r => r.dz == 7 && stripStr r.estacion == "E1") = []
    ∧ (consolidar [] [⟨7, " E1 ", some 55, some 10, some "Recurrente", some "obs"⟩]
          20).filter (fun r => r.dz == 7 && r.estacion == "E1")
      = [⟨7, "E1", 0, clasificar_var_disp_num (some 55), some 10, "Recurrente",
          some "obs", "anterior"⟩] := by
  have h1 : stripStr "E1" = "E1" := by decide
  have h2 : ([⟨7, " E1 ", some 55, some 10, some "Recurrente", some "obs"⟩] :
      List PrevRow).filter (fun r => r.dz == 7 && stripStr r.estacion == "E1")
      = [⟨7, " E1 ", some 55, some 10, some "Recurrente", some "obs"⟩] := by decide
  have h3 : ([] : List ActRow).filter
      (fun r => r.dz == 7 && stripStr r.estacion == "E1") = [] := rfl
  exact ⟨h1, h2, h3,
    claim_c10 [] [⟨7, " E1 ", some 55, some 10, some "Recurrente", some "obs"⟩]
      20 7 "E1" ⟨7, " E1 ", some 55, some 10, some "Recurrente", some "obs"⟩
      h1 h2 h3⟩
